import Mathlib

/-!
Verification development for the xiaohshu-dashbord repository.

The repository contains two Streamlit applications (app1.py, app2.py) that
share one data pipeline: normalize spreadsheet column names, parse a fixed
Chinese date format, drop unparseable rows, sort by publish time, coerce
numeric columns (failures become 0), derive seven engagement ratios with
null on zero denominators, and aggregate the per-file tables into a
multi-sheet workbook keyed by a sanitized sheet name.

The pipeline is embedded shallowly below.  Machine floats are modelled by
the exact rationals; the float specials inf and nan that pandas can also
produce are outside the model (a cell reading "nan" coerces to 0 through
fillna exactly as in the model; "inf" has no rational counterpart).
Column cells are a sum of a number, a text, and a missing value.
-/

namespace Xhs

/-- One spreadsheet cell as read from an uploaded file: a number, a piece
of text, or a missing value (pandas NaN). -/
inductive Cell where
  | num (q : ℚ)
  | str (s : String)
  | na
deriving DecidableEq

/-- A raw table as produced by pd.read_excel: a header row and the data
rows, each row a list of cells positionally aligned with the headers. -/
structure Table where
  headers : List String
  rows : List (List Cell)
deriving DecidableEq

/-- A parsed publish timestamp with second precision, the result of
pd.to_datetime with format "%Y年%m月%d日%H时%M分%S秒". -/
structure DateTime where
  year : Nat
  month : Nat
  day : Nat
  hour : Nat
  minute : Nat
  second : Nat
deriving DecidableEq

/-- Encode a timestamp as a single natural number; on timestamps whose
fields are in range this agrees with chronological order. -/
def DateTime.key (t : DateTime) : Nat :=
  ((((t.year * 12 + (t.month - 1)) * 31 + (t.day - 1)) * 24 + t.hour) * 60 + t.minute) * 60
    + t.second

/-- Gregorian leap year test. -/
def isLeap (y : Nat) : Bool :=
  (y % 4 == 0 && y % 100 != 0) || (y % 400 == 0)

/-- Number of days of a month, as validated by datetime construction. -/
def daysInMonth (y m : Nat) : Nat :=
  if m == 2 then (if isLeap y then 29 else 28)
  else if m == 4 || m == 6 || m == 9 || m == 11 then 30
  else 31

/-- Smallest second-precision timestamp representable by a pandas
Timestamp (the nanosecond epoch bound 1677-09-21 00:12:43.145... rounded
up to a whole second); earlier datetimes overflow and coerce to NaT. -/
def tsMin : DateTime := ⟨1677, 9, 21, 0, 12, 44⟩

/-- Largest second-precision timestamp representable by a pandas
Timestamp (2262-04-11 23:47:16.854... rounded down to a whole second). -/
def tsMax : DateTime := ⟨2262, 4, 11, 23, 47, 16⟩

/-- Field validation performed by datetime construction inside strptime,
plus the pandas Timestamp range check (out of range coerces to NaT). -/
def validDT (t : DateTime) : Bool :=
  1 ≤ t.month && t.month ≤ 12 &&
  1 ≤ t.day && t.day ≤ daysInMonth t.year t.month &&
  t.hour ≤ 23 && t.minute ≤ 59 && t.second ≤ 59 &&
  tsMin.key ≤ t.key && t.key ≤ tsMax.key

/-- Take at most k leading decimal digits, returning them and the rest. -/
def takeDigitsAtMost : Nat → List Char → List Char × List Char
  | 0, cs => ([], cs)
  | _ + 1, [] => ([], [])
  | k + 1, c :: cs =>
    if c.isDigit then
      let p := takeDigitsAtMost k cs
      (c :: p.1, p.2)
    else ([], c :: cs)

/-- Take all leading decimal digits, returning them and the rest. -/
def takeDigits : List Char → List Char × List Char
  | [] => ([], [])
  | c :: cs =>
    if c.isDigit then
      let p := takeDigits cs
      (c :: p.1, p.2)
    else ([], c :: cs)

/-- Decimal value of a digit string. -/
def digitsToNat (ds : List Char) : Nat :=
  ds.foldl (fun a c => a * 10 + (c.toNat - 48)) 0

/-- Read a natural number of at most k digits, as a strptime numeric
directive does; fails when no digit is present. -/
def takeNatAtMost (k : Nat) (cs : List Char) : Option (Nat × List Char) :=
  let p := takeDigitsAtMost k cs
  if p.1.isEmpty then none else some (digitsToNat p.1, p.2)

/-- Consume one expected literal character. -/
def expectChar (c : Char) : List Char → Option (List Char)
  | x :: xs => if x == c then some xs else none
  | [] => none

/-- Parse a string against the fixed format "%Y年%m月%d日%H时%M分%S秒",
the whole string must be consumed and the fields must validate; failure
means the value becomes NaT under errors="coerce". -/
def parseDT (s : String) : Option DateTime := do
  let cs := s.toList
  let (y, cs) ← takeNatAtMost 4 cs
  let cs ← expectChar '年' cs
  let (mo, cs) ← takeNatAtMost 2 cs
  let cs ← expectChar '月' cs
  let (da, cs) ← takeNatAtMost 2 cs
  let cs ← expectChar '日' cs
  let (h, cs) ← takeNatAtMost 2 cs
  let cs ← expectChar '时' cs
  let (mi, cs) ← takeNatAtMost 2 cs
  let cs ← expectChar '分' cs
  let (se, cs) ← takeNatAtMost 2 cs
  let cs ← expectChar '秒' cs
  if cs.isEmpty then
    let t : DateTime := ⟨y, mo, da, h, mi, se⟩
    if validDT t then some t else none
  else none

/-- Publish-time parsing of one cell: only text cells can match the fixed
format; numbers and missing values coerce to NaT. -/
def parsePublish : Cell → Option DateTime
  | Cell.str s => parseDT s
  | _ => none

/-- Whitespace trimming of a character list from both ends. -/
def stripChars (cs : List Char) : List Char :=
  ((cs.dropWhile Char.isWhitespace).reverse.dropWhile Char.isWhitespace).reverse

/-- Model of the column-label strip performed by df.columns.str.strip(). -/
def strip (s : String) : String :=
  String.mk (stripChars s.toList)

/-- The synonym-to-canonical column rename table of both apps. -/
def rename_map : List (String × String) :=
  [("曝光量", "曝光"), ("阅读量", "观看量"), ("播放量", "观看量"), ("观看数", "观看量"),
   ("点赞数", "点赞"), ("获赞", "点赞"), ("获赞数", "点赞"), ("点赞次数", "点赞"),
   ("收藏数", "收藏"), ("评论数", "评论"), ("涨粉数", "涨粉"), ("净涨粉", "涨粉"),
   ("发布形式", "体裁")]

/-- Canonical name of one column label. -/
def canon (s : String) : String :=
  (rename_map.lookup s).getD s

/-- Column labels after stripping whitespace and applying the rename map. -/
def normHeaders (hs : List String) : List String :=
  hs.map (fun h => canon (strip h))

/-- The eleven canonical columns both apps require. -/
def required_cols : List String :=
  ["笔记标题", "曝光", "点赞", "观看量", "收藏", "评论", "涨粉", "分享",
   "封面点击率", "首次发布时间", "体裁"]

/-- The required columns still absent after normalization. -/
def missingList (t : Table) : List String :=
  required_cols.filter (fun c => !((normHeaders t.headers).contains c))

/-- Cell of a row under a column label; missing positions read as NaN
exactly as pandas fills short rows. -/
def cellAt (hs : List String) (cells : List Cell) (c : String) : Cell :=
  match List.indexOf? c hs with
  | some i => cells.getD i Cell.na
  | none => Cell.na

/-- A retained row: its original input position, its parsed publish
timestamp, and its raw cells. -/
structure SRow where
  origIdx : Nat
  pub : DateTime
  cells : List Cell
deriving DecidableEq

/-- Rows that survive the dropna on the parsed publish time, tagged with
their original input position. -/
def retainedRows (hs : List String) (rows : List (List Cell)) : List SRow :=
  rows.enum.filterMap (fun p =>
    (parsePublish (cellAt hs p.2 "首次发布时间")).map (fun t => ⟨p.1, t, p.2⟩))

/-- Ascending order on retained rows: by parsed timestamp, equal
timestamps by original input position.  sort_values is called with the
default quicksort, whose order on equal timestamps is unspecified; the
model fixes the tie order to input order, and every theorem below that
mentions the sorted list is independent of the tie order. -/
def recLE (a b : SRow) : Prop :=
  a.pub.key < b.pub.key ∨ (a.pub.key = b.pub.key ∧ a.origIdx ≤ b.origIdx)

instance recLE.instDecidable : DecidableRel recLE :=
  fun a b =>
    inferInstanceAs (Decidable (a.pub.key < b.pub.key ∨
      (a.pub.key = b.pub.key ∧ a.origIdx ≤ b.origIdx)))

/-- A sanitized Dataset: the normalized input headers and the retained
rows in sorted order; the dense 1-based sequence number of a row is its
position in recs plus one. -/
structure Dataset where
  headers : List String
  recs : List SRow
deriving DecidableEq

/-- Result of analyze_and_display on one table: the sanitized Dataset, or
the missing-columns failure that makes the caller skip the file. -/
inductive AnalyzeResult where
  | ok (d : Dataset)
  | missingError (missing : List String)
deriving DecidableEq

/-- The per-file pipeline shared by app1.py and app2.py: normalize and
check columns, parse the publish time, drop unparseable rows, sort
ascending by timestamp.  With an empty retained set the date-range line
formats NaT (pandas NaTType.date returns NaT rather than raising), so the
empty Dataset is still returned. -/
def analyze_and_display (t : Table) : AnalyzeResult :=
  if (missingList t).isEmpty then
    AnalyzeResult.ok ⟨normHeaders t.headers,
      List.insertionSort recLE (retainedRows (normHeaders t.headers) t.rows)⟩
  else AnalyzeResult.missingError (missingList t)

/-- Sign parsing shared by the numeric reader: true means negative. -/
def parseSign : List Char → Bool × List Char
  | '-' :: cs => (true, cs)
  | '+' :: cs => (false, cs)
  | cs => (false, cs)

/-- Model of pd.to_numeric(errors="coerce") on a text cell: surrounding
whitespace, an optional sign, decimal digits with an optional fractional
part and an optional decimal exponent.  Digits are the ASCII ones; the
float specials inf and nan that pandas also recognizes are outside the
rational model (a nan coerces to 0 through the subsequent fillna anyway). -/
def parseRat (s : String) : Option ℚ :=
  let cs := stripChars s.toList
  let p0 := parseSign cs
  let p1 := takeDigits p0.2
  let p2 :=
    match p1.2 with
    | '.' :: rest => takeDigits rest
    | _ => (([] : List Char), p1.2)
  if p1.1.isEmpty && p2.1.isEmpty then none
  else
    let mant : ℚ := (digitsToNat p1.1 : ℚ) + (digitsToNat p2.1 : ℚ) / ((10 : ℚ) ^ p2.1.length)
    let signed : ℚ := if p0.1 then -mant else mant
    match p2.2 with
    | [] => some signed
    | e :: rest =>
      if e == 'e' || e == 'E' then
        let p3 := parseSign rest
        let p4 := takeDigits p3.2
        if p4.1.isEmpty || !p4.2.isEmpty then none
        else
          let ex := digitsToNat p4.1
          some (if p3.1 then signed / ((10 : ℚ) ^ ex) else signed * ((10 : ℚ) ^ ex))
      else none

/-- Numeric coercion of one cell: pd.to_numeric(errors="coerce").fillna(0).
Numbers pass through, unparseable text and missing values become 0. -/
def toNum : Cell → ℚ
  | Cell.num q => q
  | Cell.str s => (parseRat s).getD 0
  | Cell.na => 0

/-- The eight raw numeric columns both apps coerce. -/
def numeric_cols : List String :=
  ["曝光", "封面点击率", "点赞", "观看量", "收藏", "评论", "涨粉", "分享"]

/-- Coerced numeric value of a named column in a row. -/
def colVal (hs : List String) (cells : List Cell) (c : String) : ℚ :=
  toNum (cellAt hs cells c)

/-- Division guarded by replace(0, pd.NA): a zero denominator yields the
null value, anything else the exact quotient. -/
def safeDiv (a b : ℚ) : Option ℚ :=
  if b = 0 then none else some (a / b)

/-- 点赞率 likes / views. -/
def likeRate (hs : List String) (cells : List Cell) : Option ℚ :=
  safeDiv (colVal hs cells "点赞") (colVal hs cells "观看量")

/-- 收藏率 favorites / views. -/
def favRate (hs : List String) (cells : List Cell) : Option ℚ :=
  safeDiv (colVal hs cells "收藏") (colVal hs cells "观看量")

/-- 赞藏比 likes / favorites. -/
def likeToFav (hs : List String) (cells : List Cell) : Option ℚ :=
  safeDiv (colVal hs cells "点赞") (colVal hs cells "收藏")

/-- 评论率 comments / views. -/
def commentRate (hs : List String) (cells : List Cell) : Option ℚ :=
  safeDiv (colVal hs cells "评论") (colVal hs cells "观看量")

/-- 互动率 (likes + comments + favorites) / views. -/
def engageRate (hs : List String) (cells : List Cell) : Option ℚ :=
  safeDiv (colVal hs cells "点赞" + colVal hs cells "评论" + colVal hs cells "收藏")
    (colVal hs cells "观看量")

/-- Denominator of 有效活跃度: likes + favorites. -/
def effDen (hs : List String) (cells : List Cell) : ℚ :=
  colVal hs cells "点赞" + colVal hs cells "收藏"

/-- 有效活跃度 comments / (likes + favorites). -/
def effActivity (hs : List String) (cells : List Cell) : Option ℚ :=
  safeDiv (colVal hs cells "评论") (effDen hs cells)

/-- 转粉率 follower-gain / views. -/
def followConv (hs : List String) (cells : List Cell) : Option ℚ :=
  safeDiv (colVal hs cells "涨粉") (colVal hs cells "观看量")

/-- Series.mean with the default skipna: running sum and count of the
non-null entries, null when the count is zero. -/
def pdMean (xs : List (Option ℚ)) : Option ℚ :=
  let p := xs.foldl (fun acc x =>
    match x with
    | some v => (acc.1 + v, acc.2 + 1)
    | none => acc) ((0 : ℚ), (0 : Nat))
  if p.2 = 0 then none else some (p.1 / (p.2 : ℚ))

/-- The mean as the spec words it: the arithmetic mean of the non-null
entries, null (never zero) when every entry is null. -/
def meanOfNonNull (xs : List (Option ℚ)) : Option ℚ :=
  let vs := xs.filterMap id
  if vs.isEmpty then none else some (vs.sum / (vs.length : ℚ))

/-- The 封面点击率 column of a Dataset after coercion: never null. -/
def coverSeries (d : Dataset) : List (Option ℚ) :=
  d.recs.map (fun r => some (colVal d.headers r.cells "封面点击率"))

/-- The 点赞率 column of a Dataset. -/
def likeRateSeries (d : Dataset) : List (Option ℚ) :=
  d.recs.map (fun r => likeRate d.headers r.cells)

/-- The 收藏率 column of a Dataset. -/
def favRateSeries (d : Dataset) : List (Option ℚ) :=
  d.recs.map (fun r => favRate d.headers r.cells)

/-- The 互动率 column of a Dataset. -/
def engageSeries (d : Dataset) : List (Option ℚ) :=
  d.recs.map (fun r => engageRate d.headers r.cells)

/-- The 转粉率 column of a Dataset. -/
def followConvSeries (d : Dataset) : List (Option ℚ) :=
  d.recs.map (fun r => followConv d.headers r.cells)

/-- Minimum parsed publish time of a Dataset, NaT (none) when empty. -/
def minPub (d : Dataset) : Option DateTime :=
  d.recs.foldl (fun acc r =>
    match acc with
    | none => some r.pub
    | some p => if r.pub.key < p.key then some r.pub else some p) none

/-- Maximum parsed publish time of a Dataset, NaT (none) when empty. -/
def maxPub (d : Dataset) : Option DateTime :=
  d.recs.foldl (fun acc r =>
    match acc with
    | none => some r.pub
    | some p => if p.key < r.pub.key then some r.pub else some p) none

/-- The .date() call of the date-range banner.  pandas NaTType.date is one
of the NaT-returning methods, so on NaT it yields NaT (none) and raises
nothing; on a timestamp it yields the calendar date. -/
def dateOf : Option DateTime → Option (Nat × Nat × Nat)
  | none => none
  | some t => some (t.year, t.month, t.day)

/-- One cell of the exported workbook: the export also carries parsed
datetimes and the sequence number, which raw cells cannot. -/
inductive OutCell where
  | num (q : ℚ)
  | str (s : String)
  | blank
  | date (t : DateTime)
deriving DecidableEq

/-- Raw cell carried into the workbook unchanged. -/
def exportCell : Cell → OutCell
  | Cell.num q => OutCell.num q
  | Cell.str s => OutCell.str s
  | Cell.na => OutCell.blank

/-- Nullable metric carried into the workbook. -/
def optCell : Option ℚ → OutCell
  | some q => OutCell.num q
  | none => OutCell.blank

/-- The seven derived columns in the order both apps create them. -/
def derived_cols : List String :=
  ["点赞率", "收藏率", "赞藏比", "评论率", "互动率", "有效活跃度", "转粉率"]

/-- The display order used by st.dataframe, the order the spec documents
for the workbook. -/
def display_cols : List String :=
  ["序号", "笔记标题", "首次发布时间", "体裁", "曝光", "观看量", "封面点击率",
   "点赞", "评论", "收藏", "涨粉", "分享",
   "点赞率", "收藏率", "互动率", "转粉率", "赞藏比", "有效活跃度"]

/-- One exported row: the sequence number first, then every input column
in its original position (numeric columns coerced, the publish time as its
parsed datetime), then the seven derived metrics in creation order. -/
def outRow (hs : List String) (seq : Nat) (r : SRow) : List OutCell :=
  OutCell.num (seq : ℚ) ::
  hs.enum.map (fun p =>
    if numeric_cols.contains p.2 then OutCell.num (toNum (r.cells.getD p.1 Cell.na))
    else if p.2 == "首次发布时间" then OutCell.date r.pub
    else exportCell (r.cells.getD p.1 Cell.na)) ++
  [optCell (likeRate hs r.cells), optCell (favRate hs r.cells),
   optCell (likeToFav hs r.cells), optCell (commentRate hs r.cells),
   optCell (engageRate hs r.cells), optCell (effActivity hs r.cells),
   optCell (followConv hs r.cells)]

/-- One workbook sheet as written by to_excel(index=False). -/
structure Sheet where
  headers : List String
  rows : List (List OutCell)
deriving DecidableEq

/-- Serialize one processed Dataset to a sheet: to_excel writes the whole
DataFrame, that is the sequence column inserted at position 0, the input
columns in their original order, and all seven derived columns. -/
def sheetOf (d : Dataset) : Sheet :=
  ⟨"序号" :: d.headers ++ derived_cols,
   d.recs.enum.map (fun p => outRow d.headers (p.1 + 1) p.2)⟩

/-- Serialize the report mapping: one sheet per entry, in mapping order. -/
def workbook (m : List (String × Dataset)) : List (String × Sheet) :=
  m.map (fun p => (p.1, sheetOf p.2))

/-- Python str.isalnum restricted to the character ranges relevant to the
uploaded filenames: ASCII letters and digits, and the CJK unified
ideographs, which Python also counts as alphanumeric.  Other Unicode
letter ranges are outside the modelled alphabet. -/
def pyIsAlnum (c : Char) : Bool :=
  c.isAlphanum || (0x4E00 ≤ c.toNat && c.toNat ≤ 0x9FFF)

/-- Sheet identifier of a filename: keep only alphanumeric characters and
truncate to 31 characters. -/
def sheet_name (s : String) : String :=
  String.mk ((s.toList.filter pyIsAlnum).take 31)

/-- Python dict insertion: an existing key keeps its position and gets the
new value (last write wins), a new key is appended. -/
def dictInsert (m : List (String × Dataset)) (k : String) (v : Dataset) :
    List (String × Dataset) :=
  if m.any (fun p => p.1 == k) then
    m.map (fun p => if p.1 == k then (k, v) else p)
  else m ++ [(k, v)]

/-- One uploaded file as the main loops see it: either pd.read_excel (or
any later per-file step) raises, or it yields a raw table. -/
inductive FileInput where
  | readFail (name : String)
  | table (name : String) (t : Table)
deriving DecidableEq

/-- The app1.py upload loop: every file is processed inside try/except, a
raising file is reported and skipped, a missing-columns file is skipped,
a successful file is inserted under its sheet identifier. -/
def processFiles1 : List FileInput → List (String × Dataset) → List (String × Dataset)
  | [], m => m
  | FileInput.readFail _ :: rest, m => processFiles1 rest m
  | FileInput.table n t :: rest, m =>
    match analyze_and_display t with
    | AnalyzeResult.ok d => processFiles1 rest (dictInsert m (sheet_name n) d)
    | AnalyzeResult.missingError _ => processFiles1 rest m

/-- Outcome of the app2.py upload loop, which has no try/except: either
the accumulated report, or the run dies at the first raising file. -/
inductive RunResult where
  | ok (report : List (String × Dataset))
  | crashed (filename : String)
deriving DecidableEq

/-- The app2.py upload loop: identical to app1.py except that nothing
catches a per-file exception, so a raising file aborts the whole run. -/
def processFiles2 : List FileInput → List (String × Dataset) → RunResult
  | [], m => RunResult.ok m
  | FileInput.readFail n :: _, _ => RunResult.crashed n
  | FileInput.table n t :: rest, m =>
    match analyze_and_display t with
    | AnalyzeResult.ok d => processFiles2 rest (dictInsert m (sheet_name n) d)
    | AnalyzeResult.missingError _ => processFiles2 rest m

/-!
Concrete inputs used by the witnesses and counterexamples below.
-/

/-- A well-formed data row, its cells aligned with required_cols and its
publish-time text given by the argument. -/
def rowCells (ts : String) : List Cell :=
  [Cell.str "标题A", Cell.str "100", Cell.str "10", Cell.str "50", Cell.str "5",
   Cell.str "3", Cell.str "2", Cell.str "1", Cell.str "0.05", Cell.str ts,
   Cell.str "图文"]

/-- A one-row table with canonical headers and a parseable publish time. -/
def tGood : Table :=
  ⟨required_cols, [rowCells "2023年01月02日03时04分05秒"]⟩

/-- The Dataset the pipeline produces from tGood. -/
def dGood : Dataset :=
  ⟨required_cols, [⟨0, ⟨2023, 1, 2, 3, 4, 5⟩, rowCells "2023年01月02日03时04分05秒"⟩]⟩

/-- A two-row table whose second row has an unparseable publish time. -/
def tMixed : Table :=
  ⟨required_cols, [rowCells "2023年01月02日03时04分05秒", rowCells "改天"]⟩

/-- The Dataset the pipeline produces from tMixed: only the first row. -/
def dMixed : Dataset :=
  ⟨required_cols, [⟨0, ⟨2023, 1, 2, 3, 4, 5⟩, rowCells "2023年01月02日03时04分05秒"⟩]⟩

/-- A table whose headers lack the 收藏 column. -/
def tMissing : Table :=
  ⟨["笔记标题", "曝光", "点赞", "观看量", "评论", "涨粉", "分享", "封面点击率",
    "首次发布时间", "体裁"],
   [[Cell.str "标题A", Cell.str "100", Cell.str "10", Cell.str "50", Cell.str "3",
     Cell.str "2", Cell.str "1", Cell.str "0.05",
     Cell.str "2023年01月02日03时04分05秒", Cell.str "图文"]]⟩

/-- A table with valid columns whose only publish time is in the wrong
format, so every row is dropped. -/
def tNoDates : Table :=
  ⟨required_cols, [rowCells "2023-01-02 03:04:05"]⟩

/-- The empty Dataset the pipeline produces from tNoDates. -/
def dEmptyOut : Dataset := ⟨required_cols, []⟩

/-- An upload sequence whose first file raises while being read and whose
second file is perfectly processable. -/
def crashFiles : List FileInput :=
  [FileInput.readFail "坏文件.xlsx", FileInput.table "好文件.xlsx" tGood]

/-- A row whose likes, views and favorites are all exactly zero. -/
def wRow : SRow :=
  ⟨0, ⟨2023, 1, 2, 3, 4, 5⟩,
   [Cell.str "标题A", Cell.num 1, Cell.num 0, Cell.num 0, Cell.num 0, Cell.num 2,
    Cell.num 3, Cell.num 1, Cell.num 0, Cell.str "2023年01月02日03时04分05秒",
    Cell.str "图文"]⟩

/-- A Dataset holding only wRow. -/
def wDs : Dataset := ⟨required_cols, [wRow]⟩

/-!
Helper lemmas.
-/

/-- Running sum and count of the non-null entries, expressed through
filterMap: the accumulator formulation of pdMean unfolded. -/
theorem pdMean_foldl (xs : List (Option ℚ)) (a : ℚ) (b : Nat) :
    xs.foldl (fun acc x =>
      match x with
      | some v => (acc.1 + v, acc.2 + 1)
      | none => acc) (a, b)
      = (a + (xs.filterMap id).sum, b + (xs.filterMap id).length) := by
  induction xs generalizing a b with
  | nil => simp
  | cons x xs ih =>
    cases x with
    | none => simpa using ih a b
    | some v =>
      have h : List.filterMap id (some v :: xs) = v :: List.filterMap id xs := rfl
      simp only [List.foldl_cons, ih, h, List.sum_cons, List.length_cons, Prod.mk.injEq]
      constructor
      · ring
      · omega

/-- The skipna mean of the code agrees with the mean the spec words: the
arithmetic mean of the non-null entries, null when all entries are null. -/
theorem pdMean_eq_spec (xs : List (Option ℚ)) : pdMean xs = meanOfNonNull xs := by
  unfold pdMean meanOfNonNull
  rw [pdMean_foldl]
  simp [List.isEmpty_iff, List.length_eq_zero]

/-!
Claim theorems.
-/

/-- Claim C1: for every row of a sanitized Dataset and each of the seven
derived metrics, a denominator of exactly 0 makes the computed value null:
the five view-rates when views is 0, the like-to-favorite value when
favorites is 0, the effective-activity value when likes plus favorites is
0.  The metrics land in Option ℚ, so no divide-by-zero error and no
infinity can arise. -/
theorem c1_zero_denominator_null (d : Dataset) (r : SRow) (_hr : r ∈ d.recs) :
    (colVal d.headers r.cells "观看量" = 0 →
      likeRate d.headers r.cells = none ∧ favRate d.headers r.cells = none ∧
      commentRate d.headers r.cells = none ∧ engageRate d.headers r.cells = none ∧
      followConv d.headers r.cells = none) ∧
    (colVal d.headers r.cells "收藏" = 0 → likeToFav d.headers r.cells = none) ∧
    (effDen d.headers r.cells = 0 → effActivity d.headers r.cells = none) := by
  refine ⟨fun h => ?_, fun h => ?_, fun h => ?_⟩
  · exact ⟨by simp [likeRate, safeDiv, h], by simp [favRate, safeDiv, h],
      by simp [commentRate, safeDiv, h], by simp [engageRate, safeDiv, h],
      by simp [followConv, safeDiv, h]⟩
  · simp [likeToFav, safeDiv, h]
  · simp [effActivity, safeDiv, h]

/-- Witness for C1 at a concrete row whose views, likes and favorites are
all zero. -/
theorem c1_zero_denominator_null_witness :
    likeRate wDs.headers wRow.cells = none ∧
    likeToFav wDs.headers wRow.cells = none ∧
    effActivity wDs.headers wRow.cells = none := by
  have h := c1_zero_denominator_null wDs wRow (by decide)
  exact ⟨(h.1 (by decide)).1, h.2.1 (by decide),
    h.2.2 (by show (0 : ℚ) + 0 = 0; norm_num)⟩

/-- Claim C7: a raw numeric cell that fails coercion contributes 0: unparseable
text becomes 0, a missing value becomes 0, and no row is dropped by the
metric stage — every retained record yields exactly one workbook row. -/
theorem c7_coercion_failure_zero :
    (∀ s : String, parseRat s = none → toNum (Cell.str s) = 0) ∧
    toNum Cell.na = 0 ∧
    ∀ d : Dataset, (sheetOf d).rows.length = d.recs.length := by
  refine ⟨fun s h => ?_, rfl, fun d => ?_⟩
  · simp [toNum, h]
  · simp [sheetOf]

/-- Witness for C7 at a concrete non-numeric string. -/
theorem c7_coercion_failure_zero_witness : toNum (Cell.str "一千") = 0 :=
  c7_coercion_failure_zero.1 "一千" (by decide)

/-- Claim C9: for every Dataset, the per-file mean of each of 封面点击率,
点赞率, 收藏率, 互动率 and 转粉率 is the arithmetic mean of the non-null
entries of that column, and a column whose entries are all null has a null
mean, never zero. -/
theorem c9_mean_skips_null :
    (∀ d : Dataset,
      pdMean (coverSeries d) = meanOfNonNull (coverSeries d) ∧
      pdMean (likeRateSeries d) = meanOfNonNull (likeRateSeries d) ∧
      pdMean (favRateSeries d) = meanOfNonNull (favRateSeries d) ∧
      pdMean (engageSeries d) = meanOfNonNull (engageSeries d) ∧
      pdMean (followConvSeries d) = meanOfNonNull (followConvSeries d)) ∧
    ∀ d : Dataset, (∀ x ∈ likeRateSeries d, x = none) →
      pdMean (likeRateSeries d) = none := by
  refine ⟨fun d => ⟨pdMean_eq_spec _, pdMean_eq_spec _, pdMean_eq_spec _,
    pdMean_eq_spec _, pdMean_eq_spec _⟩, fun d h => ?_⟩
  rw [pdMean_eq_spec]
  unfold meanOfNonNull
  have hnil : (likeRateSeries d).filterMap id = [] := by
    rw [List.filterMap_eq_nil_iff]
    exact h
  simp [hnil]

/-- Witness for C9: a Dataset whose single row has zero views, so its
点赞率 column is all null and its mean is null. -/
theorem c9_mean_skips_null_witness : pdMean (likeRateSeries wDs) = none :=
  c9_mean_skips_null.2 wDs (by decide)

/-- Claim C5: a table still lacking a required canonical column after the strip
and rename fails with the missing-columns result naming exactly the
missing set, and both upload loops skip the file entirely: the aggregate
report is as if the file had not been uploaded. -/
theorem c5_missing_columns_skip (t : Table) (h : missingList t ≠ []) :
    analyze_and_display t = AnalyzeResult.missingError (missingList t) ∧
    ∀ (n : String) (rest : List FileInput) (m : List (String × Dataset)),
      processFiles1 (FileInput.table n t :: rest) m = processFiles1 rest m ∧
      processFiles2 (FileInput.table n t :: rest) m = processFiles2 rest m := by
  have he : analyze_and_display t = AnalyzeResult.missingError (missingList t) := by
    unfold analyze_and_display
    have hne : (missingList t).isEmpty = false := by
      cases hml : missingList t with
      | nil => exact absurd hml h
      | cons a l => rfl
    rw [hne]
    rfl
  exact ⟨he, fun n rest m => ⟨by simp [processFiles1, he], by simp [processFiles2, he]⟩⟩

/-- Witness for C5 at a concrete table lacking the 收藏 column. -/
theorem c5_missing_columns_skip_witness :
    analyze_and_display tMissing = AnalyzeResult.missingError ["收藏"] :=
  (c5_missing_columns_skip tMissing (by decide)).1

/-- Claim C3, counterexample: an upload sequence whose first file raises while
being read: app2.py, whose loop has no try/except, aborts the whole run at
that file, and the second file — which analyzes fine and which app1.py
does process into the aggregate — is never processed and never aggregated.
The claim that every per-file failure leaves subsequent files processed
and aggregated is therefore false of the program. -/
theorem c3_counterexample :
    processFiles2 crashFiles [] = RunResult.crashed "坏文件.xlsx" ∧
    analyze_and_display tGood = AnalyzeResult.ok dGood ∧
    processFiles1 crashFiles [] = [(sheet_name "好文件.xlsx", dGood)] := by
  refine ⟨rfl, by decide, by decide⟩

/-- Claim C3, amended: in app1.py a per-file exception is caught: the failing
file is skipped and the rest of the run is exactly the run on the
remaining files.  In app2.py nothing catches it: the run crashes at the
failing file and later files are not processed. -/
theorem c3_isolation_amended (n : String) (rest : List FileInput)
    (m : List (String × Dataset)) :
    processFiles1 (FileInput.readFail n :: rest) m = processFiles1 rest m ∧
    processFiles2 (FileInput.readFail n :: rest) m = RunResult.crashed n :=
  ⟨rfl, rfl⟩

/-- Claim C4, counterexample: the workbook sheet built from a perfectly ordinary
processed file does not have the documented display order: to_excel writes
the whole DataFrame, whose columns are the sequence number, the input
columns in their original order and all seven derived metrics — including
评论率, which the documented order omits. -/
theorem c4_counterexample :
    analyze_and_display tGood = AnalyzeResult.ok dGood ∧
    (sheetOf dGood).headers ≠ display_cols ∧
    "评论率" ∈ (sheetOf dGood).headers ∧ "评论率" ∉ display_cols := by
  exact ⟨by decide, by decide, by decide, by decide⟩

/-- Claim C4, amended: the workbook has one sheet per report-mapping entry,
under the entry key; each sheet's columns are the sequence column first,
then the input's columns in their original normalized order, then the
seven derived columns 点赞率, 收藏率, 赞藏比, 评论率, 互动率, 有效活跃度,
转粉率; and each sheet's row count equals the Dataset's retained row
count. -/
theorem c4_workbook_amended :
    (∀ d : Dataset, (sheetOf d).headers = "序号" :: d.headers ++ derived_cols ∧
      (sheetOf d).rows.length = d.recs.length) ∧
    (∀ m : List (String × Dataset), (workbook m).map Prod.fst = m.map Prod.fst ∧
      (workbook m).length = m.length) := by
  refine ⟨fun d => ⟨rfl, by simp [sheetOf]⟩, fun m => ⟨by simp [workbook], by simp [workbook]⟩⟩

/-- Claim C10, counterexample: a table that passes column validation but whose
only publish time fails to parse yields the empty Dataset: no exception is
raised, the date-range banner formats NaT (pandas NaTType.date returns
NaT), and the empty sanitized Dataset is returned. -/
theorem c10_counterexample :
    analyze_and_display tNoDates = AnalyzeResult.ok dEmptyOut ∧
    dEmptyOut.recs = [] ∧
    dateOf (minPub dEmptyOut) = none ∧ dateOf (maxPub dEmptyOut) = none := by
  exact ⟨by decide, rfl, rfl, rfl⟩

/-- Claim C10, amended: a file that passes column validation and whose every row
fails timestamp parsing produces the empty sanitized Dataset; the min and
max publish times are NaT and the date display is NaT, with no exception
anywhere in the pipeline. -/
theorem c10_empty_dataset_amended (t : Table) (hm : missingList t = [])
    (hr : retainedRows (normHeaders t.headers) t.rows = []) :
    analyze_and_display t = AnalyzeResult.ok ⟨normHeaders t.headers, []⟩ ∧
    minPub ⟨normHeaders t.headers, []⟩ = none ∧
    maxPub ⟨normHeaders t.headers, []⟩ = none ∧
    dateOf (minPub ⟨normHeaders t.headers, []⟩) = none := by
  refine ⟨?_, rfl, rfl, rfl⟩
  unfold analyze_and_display
  rw [hm, hr]
  rfl

/-- Witness for the amended C10 at the concrete all-unparseable table. -/
theorem c10_empty_dataset_amended_witness :
    analyze_and_display tNoDates = AnalyzeResult.ok ⟨normHeaders tNoDates.headers, []⟩ :=
  (c10_empty_dataset_amended tNoDates (by decide) (by decide)).1

/-- Claim C6: the sheet identifier of a file keeps exactly the alphanumeric
characters of its name truncated to at most 31; and when two successfully
processed files collide on the identifier, the later file overwrites the
earlier in the report mapping and only one sheet survives. -/
theorem c6_sheet_identifier :
    (∀ s : String, (sheet_name s).toList = (s.toList.filter pyIsAlnum).take 31 ∧
      (sheet_name s).length ≤ 31) ∧
    ∀ (n1 n2 : String) (t1 t2 : Table) (d1 d2 : Dataset),
      sheet_name n1 = sheet_name n2 →
      analyze_and_display t1 = AnalyzeResult.ok d1 →
      analyze_and_display t2 = AnalyzeResult.ok d2 →
      processFiles1 [FileInput.table n1 t1, FileInput.table n2 t2] [] =
        [(sheet_name n2, d2)] := by
  constructor
  · intro s
    refine ⟨rfl, ?_⟩
    show ((s.toList.filter pyIsAlnum).take 31).length ≤ 31
    rw [List.length_take]
    exact min_le_left _ _
  · intro n1 n2 t1 t2 d1 d2 hk h1 h2
    simp [processFiles1, h1, h2, dictInsert, hk]

/-- Witness for C6 at two distinct filenames with the same identifier. -/
theorem c6_sheet_identifier_witness :
    processFiles1 [FileInput.table "报告!.xlsx" tGood, FileInput.table "报告-.xlsx" tGood]
      [] = [(sheet_name "报告-.xlsx", dGood)] :=
  c6_sheet_identifier.2 "报告!.xlsx" "报告-.xlsx" tGood tGood dGood dGood
    (by decide) (by decide) (by decide)

/-- Claim C8: every Dataset the pipeline returns consists, up to order, of
exactly the input rows whose publish time parses under the fixed format,
each carrying its parsed timestamp; rows that fail to parse never appear,
rows that parse are always retained. -/
theorem c8_unparseable_rows_dropped (t : Table) (d : Dataset)
    (h : analyze_and_display t = AnalyzeResult.ok d) :
    d.recs.Perm (retainedRows (normHeaders t.headers) t.rows) ∧
    ∀ r ∈ d.recs,
      parsePublish (cellAt (normHeaders t.headers) r.cells "首次发布时间") = some r.pub := by
  unfold analyze_and_display at h
  by_cases hm : (missingList t).isEmpty
  · rw [if_pos hm] at h
    injection h with h2
    subst h2
    constructor
    · exact List.perm_insertionSort _ _
    · intro r hr
      have hr2 : r ∈ retainedRows (normHeaders t.headers) t.rows :=
        ((List.perm_insertionSort recLE _).mem_iff).mp hr
      unfold retainedRows at hr2
      rw [List.mem_filterMap] at hr2
      obtain ⟨p, _, hmap⟩ := hr2
      cases hpp : parsePublish (cellAt (normHeaders t.headers) p.2 "首次发布时间") with
      | none => rw [hpp] at hmap; simp at hmap
      | some dt =>
        rw [hpp] at hmap
        simp only [Option.map_some'] at hmap
        cases hmap
        exact hpp
  · rw [if_neg hm] at h
    cases h

/-- Witness for C8 at a concrete table with one parseable and one
unparseable row: the Dataset holds exactly the parseable one. -/
theorem c8_unparseable_rows_dropped_witness :
    dMixed.recs.Perm (retainedRows (normHeaders tMixed.headers) tMixed.rows) :=
  (c8_unparseable_rows_dropped tMixed dMixed (by decide)).1

end Xhs
